import Mathlib

/-!
Verification development for the model-monitoring orchestration script
`model_monitoring/monitor.py`.

The script is a straight-line orchestrator over external cloud control-plane
APIs.  We embed it shallowly: the external services (endpoint registry,
monitoring-job store, log-sink service, object storage, shell execution) are
modelled as oracles supplied through a `Platform` record, and each embedded
function returns the list of control-plane calls it issues (its trace),
together with the error it raises, if any.  Python strings are `String`,
Python dicts are association lists in insertion order, Python `str.split` /
`str.join` are re-implemented below with Python's exact semantics for a
one-character separator (the script only ever splits on `"/"`).
-/

namespace ModelMonitor

/-- Groups of characters between occurrences of `sep`, Python-style: `n`
separators yield `n + 1` groups, empty groups included. -/
def splitCharAux (sep : Char) : List Char → List (List Char)
  | [] => [[]]
  | c :: rest =>
      if c = sep then [] :: splitCharAux sep rest
      else
        match splitCharAux sep rest with
        | [] => [[c]]
        | g :: gs => (c :: g) :: gs

/-- Python `s.split(sep)` for a one-character separator. -/
def pySplit (s : String) (sep : Char) : List String :=
  (splitCharAux sep s.data).map (fun cs => String.mk cs)

/-- Python `sep.join(parts)`. -/
def pyJoin (sep : String) : List String → String
  | [] => ""
  | [part] => part
  | part :: rest => part ++ sep ++ pyJoin sep rest

/-- Python `s.split('/')[-1]`: the last `/`-separated segment.  `pySplit`
never returns an empty list, so the default is never used. -/
def lastSeg (s : String) : String := (pySplit s '/').getLastD ""

/-- A JSON value, as carried in the configuration's parameter dictionaries. -/
inductive JVal where
  | jnull : JVal
  | jbool : Bool → JVal
  | jnum : Int → JVal
  | jstr : String → JVal
  | jarr : List JVal → JVal
  | jobj : List (String × JVal) → JVal

/-- A Python dict with string keys, in insertion order (keys distinct). -/
abbrev Params : Type := List (String × JVal)

/-- Python `d[k] = v` on a dict: replace the value of an existing key in
place, otherwise append the new key at the end. -/
def dictInsert : Params → String → JVal → Params
  | [], k, v => [(k, v)]
  | (a, b) :: t, k, v =>
      if a = k then (k, v) :: t else (a, b) :: dictInsert t k v

/-- `List.lookup` specialised to `Params` (first match). -/
def pLookup (k : String) (m : Params) : Option JVal :=
  List.lookup k m

/-- The keys of a dict, in order. -/
def pKeys (m : Params) : List String :=
  m.map Prod.fst

/-- The entries of a dict whose key differs from `k`. -/
def pDropKey (k : String) (m : Params) : Params :=
  m.filter (fun kv => kv.1 != k)

/-! ## `execute_process` (monitor.py lines 28-45)

`subprocess.run([command], shell=True, check=True, stdout=stdout,
stderr=subprocess.STDOUT)` with `stdout = subprocess.DEVNULL if to_null else
None`.  We record the keyword arguments the one `subprocess.run` call is made
with, and the outcome as a function of the child's exit code: `check=True`
raises `CalledProcessError` exactly on a non-zero exit, which the wrapper
catches and re-raises as `RuntimeError` with the underlying error's text. -/

/-- Destination of the child's standard output: `None` (inherit the parent's
stdout) is `inherit`, `subprocess.DEVNULL` is `devnull`. -/
inductive OutDest where
  | inherit : OutDest
  | devnull : OutDest
deriving DecidableEq

/-- Destination of the child's standard error: the script always passes
`subprocess.STDOUT`, folding stderr into the stdout stream. -/
inductive ErrDest where
  | toStdout : ErrDest
deriving DecidableEq

/-- The keyword arguments of the `subprocess.run` call. -/
structure RunCall where
  args : List String
  shell : Bool
  check : Bool
  stdoutDest : OutDest
  stderrDest : ErrDest
deriving DecidableEq

/-- Modelled from the Python runtime: the message of the
`subprocess.CalledProcessError` raised by `check=True` on a non-zero exit. -/
def calledProcessErrorDetail (command : String) (exitCode : Int) : String :=
  "Command " ++ command ++ " returned non-zero exit status " ++ toString exitCode ++ "."

/-- What one invocation of `execute_process` did: the `subprocess.run` call
it issued and its result (`Except.error` models the raised exception). -/
structure ProcOutcome where
  run : RunCall
  result : Except String Unit

/-- `execute_process(command, to_null)`, with the child's exit code supplied
by the environment. -/
def execute_process (command : String) (to_null : Bool) (exitCode : Int) : ProcOutcome :=
  let stdoutDest := if to_null then OutDest.devnull else OutDest.inherit
  { run := { args := [command], shell := true, check := true,
             stdoutDest := stdoutDest, stderrDest := ErrDest.toStdout }
    result :=
      if exitCode = 0 then Except.ok ()
      else Except.error ("Error executing process. " ++
        calledProcessErrorDetail command exitCode) }

/-! ## `upload_automatic_retraining_parameters` (monitor.py lines 66-89)

Line 79 assigns into the `auto_retraining_params` dict that the caller passed
in — the argument object itself is mutated, no copy is taken — so the state
of the caller's mapping after the call is `params_after` below.  The local
file receives `json.dumps(auto_retraining_params, indent=4)`;
`json.dumps` followed by `json.loads` is modelled as the identity on
mappings, so `local_file_content` is the mapping whose serialization the
file holds. -/

/-- The effects of one `upload_automatic_retraining_parameters` call. -/
structure UploadEffects where
  /-- The caller's `auto_retraining_params` dict after the call (the
  function assigns into the argument object in place). -/
  params_after : Params
  /-- The fixed local path written. -/
  local_file_path : String
  /-- The mapping serialized into the local file. -/
  local_file_content : Params
  /-- The bucket uploaded to. -/
  bucket : String
  /-- The bucket-relative object path: `'/'.join(path.split('/')[3:])`. -/
  object_path : String
  /-- The local file the blob upload reads. -/
  uploaded_from : String

/-- `upload_automatic_retraining_parameters(auto_retraining_params,
gs_auto_retraining_params_path, gs_pipeline_job_spec_path,
storage_bucket_name)`. -/
def upload_automatic_retraining_parameters
    (auto_retraining_params : Params)
    (gs_auto_retraining_params_path : String)
    (gs_pipeline_job_spec_path : String)
    (storage_bucket_name : String) : UploadEffects :=
  let updated := dictInsert auto_retraining_params "gs_pipeline_spec_path"
      (JVal.jstr gs_pipeline_job_spec_path)
  { params_after := updated
    local_file_path := "model_monitoring/automatic_retraining_parameters.json"
    local_file_content := updated
    bucket := storage_bucket_name
    object_path := pyJoin "/" ((pySplit gs_auto_retraining_params_path '/').drop 3)
    uploaded_from := "model_monitoring/automatic_retraining_parameters.json" }

/-! ## `create_or_update_sink` (monitor.py lines 92-122) -/

/-- Which branch `create_or_update_sink` took: `sink.update()` or
`sink.create()`. -/
inductive SinkAction where
  | created : SinkAction
  | updated : SinkAction
deriving DecidableEq

/-- The sink object a branch builds (`logging_client.sink(sink_name,
filter_=filter_, destination=destination)`). -/
structure SinkData where
  name : String
  filter_ : String
  destination : String
deriving DecidableEq

/-- What one `create_or_update_sink` call did. -/
structure SinkResult where
  action : SinkAction
  sink : SinkData
deriving DecidableEq

/-- `create_or_update_sink(sink_name, destination, filter_)`, with
`sink.exists()` supplied by the environment. -/
def create_or_update_sink (sinkExists : Bool)
    (sink_name : String) (destination : String) (filter_ : String) : SinkResult :=
  if sinkExists then
    { action := SinkAction.updated
      sink := { name := sink_name, filter_ := filter_, destination := destination } }
  else
    { action := SinkAction.created
      sink := { name := sink_name, filter_ := filter_, destination := destination } }

/-! ## `create_or_update_monitoring_job` (monitor.py lines 125-264)

The aiplatform SDK objects are embedded as records of the keyword arguments
they are constructed with; the SDK calls that consult remote state
(`Endpoint.list`, `ModelDeploymentMonitoringJob.list`, the resource names of
the job returned by `create`/`update`, `sink.exists()`, the exit code of the
IAM `gcloud` command) are oracles in `Platform`, keyed by the location the
client was initialised with and the filter string passed. -/

/-- `model_monitoring.SkewDetectionConfig(...)`. -/
structure SkewDetectionConfig where
  data_source : String
  skew_thresholds : List (String × Rat)
  target_field : String
deriving DecidableEq

/-- `model_monitoring.DriftDetectionConfig(...)`. -/
structure DriftDetectionConfig where
  drift_thresholds : List (String × Rat)
deriving DecidableEq

/-- `model_monitoring.ObjectiveConfig(skew_config, drift_config,
explanation_config=None)`. -/
structure ObjectiveConfig where
  skew_config : Option SkewDetectionConfig
  drift_config : Option DriftDetectionConfig
  explanation_config : Option Unit
deriving DecidableEq

/-- `model_monitoring.RandomSampleConfig(sample_rate=...)`. -/
structure RandomSampleConfig where
  sample_rate : Rat
deriving DecidableEq

/-- `model_monitoring.ScheduleConfig(monitor_interval=...)`. -/
structure ScheduleConfig where
  monitor_interval : Int
deriving DecidableEq

/-- `model_monitoring.EmailAlertConfig(user_emails=..., enable_logging=True)`. -/
structure EmailAlertConfig where
  user_emails : List String
  enable_logging : Bool
deriving DecidableEq

/-- The keyword arguments common to the `ModelDeploymentMonitoringJob.create`
and `...(old_job_id).update` calls. -/
structure JobCommonConfig where
  display_name : String
  logging_sampling_strategy : RandomSampleConfig
  schedule_config : ScheduleConfig
  alert_config : EmailAlertConfig
  objective_configs : ObjectiveConfig
  enable_monitoring_pipeline_logs : Bool
deriving DecidableEq

/-- The fifteen parameters of `create_or_update_monitoring_job`.  Python
values that may be `None` are modelled by their falsy empty value, which the
function treats identically (`if not alert_emails`, `if auto_retraining_params`). -/
structure MonitorArgs where
  alert_emails : List String
  auto_retraining_params : Params
  drift_thresholds : List (String × Rat)
  gs_auto_retraining_params_path : String
  job_display_name : String
  log_sink_name : String
  model_endpoint : String
  monitoring_interval : Int
  monitoring_location : String
  project_id : String
  pubsub_topic_name : String
  sample_rate : Rat
  skew_thresholds : List (String × Rat)
  target_field : String
  training_dataset : String

/-- The remote state consulted during one run, as oracles.  The list oracles
take the location `aiplatform.init` was given and the filter string passed
to the SDK `list` call. -/
structure Platform where
  listEndpoints : String → String → List String
  listJobs : String → String → List String
  /-- `resource_name` of the job object `ModelDeploymentMonitoringJob.create`
  returns. -/
  createdJobResource : String
  /-- `resource_name` of the job object `.update` returns, given the job id
  it was invoked on. -/
  updatedJobResource : String → String
  /-- `sink.exists()` for the log sink consulted by `create_or_update_sink`. -/
  sinkExists : Bool
  /-- Exit code of the `gcloud` IAM command run by `execute_process`. -/
  iamExitCode : Int

/-- The filter string of the endpoint lookup:
`f'endpoint="{model_endpoint.split("/")[-1]}"'`. -/
def endpointFilter (model_endpoint : String) : String :=
  "endpoint=\"" ++ lastSeg model_endpoint ++ "\""

/-- The filter string of the job lookup: `f'display_name="{job_display_name}"'`. -/
def jobDisplayFilter (job_display_name : String) : String :=
  "display_name=\"" ++ job_display_name ++ "\""

/-- The log filter built for the anomaly sink (monitor.py lines 239-244). -/
def anomalyLogFilter (monitoring_location : String) (job_id : String)
    (project_id : String) : String :=
  "resource.type=\"aiplatform.googleapis.com/ModelDeploymentMonitoringJob\"\n" ++
  "resource.labels.location=\"" ++ monitoring_location ++ "\"\n" ++
  "resource.labels.model_deployment_monitoring_job=\"" ++ job_id ++ "\"\n" ++
  "logName=\"projects/" ++ project_id ++
    "/logs/aiplatform.googleapis.com%2Fmodel_monitoring_anomaly\"\n" ++
  "severity>=WARNING\n"

/-- The sink destination URI (monitor.py line 245). -/
def anomalyLogDestination (project_id : String) (pubsub_topic_name : String) : String :=
  "pubsub.googleapis.com/projects/" ++ project_id ++ "/topics/" ++ pubsub_topic_name

/-- The `gcloud` IAM-grant command (monitor.py lines 259-262): it is built
from the project id alone. -/
def updateIamCommand (project_id : String) : String :=
  "gcloud projects add-iam-policy-binding " ++ project_id ++ " \\\n" ++
  "--member=\"serviceAccount:cloud-logs@system.gserviceaccount.com\" \\\n" ++
  "--role=\"roles/pubsub.publisher\""

/-- The configs assembled in monitor.py lines 176-207 and passed identically
to the create and the update call: skew config only when `skew_thresholds`
is truthy (non-empty), drift config only when `drift_thresholds` is truthy,
explanation config always `None`, alert emails defaulted to `[]` when falsy,
logging and pipeline logs enabled. -/
def buildJobConfig (a : MonitorArgs) : JobCommonConfig :=
  let skew_config : Option SkewDetectionConfig :=
    if a.skew_thresholds ≠ [] then
      some { data_source := a.training_dataset,
             skew_thresholds := a.skew_thresholds,
             target_field := a.target_field }
    else none
  let drift_config : Option DriftDetectionConfig :=
    if a.drift_thresholds ≠ [] then
      some { drift_thresholds := a.drift_thresholds }
    else none
  { display_name := a.job_display_name
    logging_sampling_strategy := { sample_rate := a.sample_rate }
    schedule_config := { monitor_interval := a.monitoring_interval }
    alert_config :=
      { user_emails := if a.alert_emails = [] then [] else a.alert_emails
        enable_logging := true }
    objective_configs :=
      { skew_config := skew_config, drift_config := drift_config,
        explanation_config := none }
    enable_monitoring_pipeline_logs := true }

/-- One control-plane call issued by the script. -/
inductive Event where
  /-- An `upload_automatic_retraining_parameters` invocation. -/
  | uploadCall : UploadEffects → Event
  /-- `aiplatform.Endpoint.list(filter=...)` under `init(location=...)`. -/
  | listEndpointsCall : String → String → Event
  /-- `aiplatform.ModelDeploymentMonitoringJob.list(filter=...)`. -/
  | listJobsCall : String → String → Event
  /-- `ModelDeploymentMonitoringJob.create(...)` with the common configs plus
  `project`, `location` and the endpoint object. -/
  | createJob : JobCommonConfig → String → String → String → Event
  /-- `ModelDeploymentMonitoringJob(old_job_id).update(...)`. -/
  | updateJob : String → JobCommonConfig → Event
  /-- `sink.create()` on the sink object built by `create_or_update_sink`. -/
  | sinkCreateCall : SinkData → Event
  /-- `sink.update()` on the sink object built by `create_or_update_sink`. -/
  | sinkUpdateCall : SinkData → Event
  /-- An `execute_process` invocation: command and `to_null`. -/
  | execProc : String → Bool → Event

/-- The sink call a `create_or_update_sink` result stands for. -/
def sinkEvent (r : SinkResult) : Event :=
  match r.action with
  | SinkAction.created => Event.sinkCreateCall r.sink
  | SinkAction.updated => Event.sinkUpdateCall r.sink

/-- The job upsert (monitor.py lines 209-234): list jobs by display name;
none found means `create`, else `update` on the first match's
`resource_name.split('/')[-1]`.  Returns the calls made and the
`resource_name` of the job object the branch bound to `job`. -/
def jobUpsert (a : MonitorArgs) (p : Platform) : List Event × String :=
  match p.listJobs a.monitoring_location (jobDisplayFilter a.job_display_name) with
  | [] =>
      ([Event.createJob (buildJobConfig a) a.project_id a.monitoring_location
          a.model_endpoint],
       p.createdJobResource)
  | first :: _ =>
      let old_job_id := lastSeg first
      ([Event.updateJob old_job_id (buildJobConfig a)],
       p.updatedJobResource old_job_id)

/-- The conditional retraining wiring (monitor.py lines 236-264): only when
`auto_retraining_params` is truthy, upsert the anomaly log sink and run the
IAM-grant command with output suppressed. -/
def retrainWiring (a : MonitorArgs) (p : Platform) (jobResource : String) : List Event :=
  if a.auto_retraining_params.isEmpty then []
  else
    let job_id := lastSeg jobResource
    let sr := create_or_update_sink p.sinkExists a.log_sink_name
        (anomalyLogDestination a.project_id a.pubsub_topic_name)
        (anomalyLogFilter a.monitoring_location job_id a.project_id)
    [sinkEvent sr,
     Event.execProc (updateIamCommand a.project_id) true]

/-- `create_or_update_monitoring_job`: the calls it issues and the error it
raises (`some msg` models the `ValueError` of lines 171-172). -/
def create_or_update_monitoring_job (a : MonitorArgs) (p : Platform) :
    List Event × Option String :=
  let epCall := Event.listEndpointsCall a.monitoring_location
      (endpointFilter a.model_endpoint)
  if p.listEndpoints a.monitoring_location (endpointFilter a.model_endpoint) = [] then
    ([epCall],
     some ("Model endpoint " ++ a.model_endpoint ++ " not found in " ++
       a.monitoring_location))
  else
    let up := jobUpsert a p
    (epCall ::
       Event.listJobsCall a.monitoring_location (jobDisplayFilter a.job_display_name) ::
       (up.1 ++ retrainWiring a p up.2),
     none)

/-- The whole configuration the `__main__` block reads: the arguments of
`create_or_update_monitoring_job` plus the two fields only the uploader
uses. -/
structure Config extends MonitorArgs where
  storage_bucket_name : String
  gs_pipeline_job_spec_path : String

/-- The `__main__` block after config loading (monitor.py lines 276-298):
upload the retraining parameters when they are truthy — line 79 mutates that
same dict object in place, so the job function then sees the updated
mapping — and run `create_or_update_monitoring_job`. -/
def main_flow (c : Config) (p : Platform) : List Event × Option String :=
  if c.auto_retraining_params.isEmpty then
    create_or_update_monitoring_job c.toMonitorArgs p
  else
    let up := upload_automatic_retraining_parameters c.auto_retraining_params
        c.gs_auto_retraining_params_path c.gs_pipeline_job_spec_path
        c.storage_bucket_name
    let res := create_or_update_monitoring_job
        { c.toMonitorArgs with auto_retraining_params := up.params_after } p
    (Event.uploadCall up :: res.1, res.2)

/-! ## Trace observations -/

/-- Is the event a `ModelDeploymentMonitoringJob.create` call. -/
def isCreateEv : Event → Bool
  | Event.createJob _ _ _ _ => true
  | _ => false

/-- Is the event a `ModelDeploymentMonitoringJob...update` call. -/
def isUpdateEv : Event → Bool
  | Event.updateJob _ _ => true
  | _ => false

/-- Is the event an update call on the given job id. -/
def isUpdateOn (job_id : String) : Event → Bool
  | Event.updateJob i _ => i = job_id
  | _ => false

/-- Is the event the job upsert (a create or an update call). -/
def isUpsertEv (e : Event) : Bool := isCreateEv e || isUpdateEv e

/-- Is the event an uploader invocation. -/
def isUploadEv : Event → Bool
  | Event.uploadCall _ => true
  | _ => false

/-- Is the event a sink create or update call. -/
def isSinkEv : Event → Bool
  | Event.sinkCreateCall _ => true
  | Event.sinkUpdateCall _ => true
  | _ => false

/-- Is the event an external process execution. -/
def isExecEv : Event → Bool
  | Event.execProc _ _ => true
  | _ => false

/-- The command of an event, when it is an external process execution. -/
def execCommandOf : Event → Option String
  | Event.execProc cmd _ => some cmd
  | _ => none

/-- The commands of the external process executions in a trace, in order. -/
def execCommands (tr : List Event) : List String :=
  tr.filterMap execCommandOf

/-- Every event satisfying `f` strictly precedes every event satisfying `g`. -/
def eventsBefore (f g : Event → Bool) (tr : List Event) : Prop :=
  ∀ i j (hi : i < tr.length) (hj : j < tr.length),
    f (tr.get ⟨i, hi⟩) = true → g (tr.get ⟨j, hj⟩) = true → i < j

/-- The keyword-argument bundle of an event, when it is a job create or
update call. -/
def jobConfigOf : Event → Option JobCommonConfig
  | Event.createJob cfg _ _ _ => some cfg
  | Event.updateJob _ cfg => some cfg
  | _ => none

/-- The keyword-argument bundles of the job create/update calls in a trace. -/
def jobConfigsIn (tr : List Event) : List JobCommonConfig :=
  tr.filterMap jobConfigOf

/-! ## Concrete inputs used by the witnesses -/

/-- A concrete argument bundle. -/
def wArgs : MonitorArgs :=
  { alert_emails := []
    auto_retraining_params := [("a", JVal.jnum 1)]
    drift_thresholds := [("f1", 1)]
    gs_auto_retraining_params_path := "gs://b/params/retrain.json"
    job_display_name := "job1"
    log_sink_name := "sink1"
    model_endpoint := "projects/p/locations/us-central1/endpoints/123"
    monitoring_interval := 1
    monitoring_location := "us-central1"
    project_id := "p"
    pubsub_topic_name := "topic1"
    sample_rate := 1
    skew_thresholds := []
    target_field := "y"
    training_dataset := "ds" }

/-- A platform on which the endpoint exists and no job or sink does. -/
def wPlatCreate : Platform :=
  { listEndpoints := fun _ _ => ["projects/p/locations/us-central1/endpoints/123"]
    listJobs := fun _ _ => []
    createdJobResource := "projects/p/locations/us-central1/modelDeploymentMonitoringJobs/789"
    updatedJobResource := fun i =>
      "projects/p/locations/us-central1/modelDeploymentMonitoringJobs/" ++ i
    sinkExists := false
    iamExitCode := 0 }

/-- A platform on which the endpoint lookup returns no match. -/
def wPlatNoEndpoint : Platform :=
  { listEndpoints := fun _ _ => []
    listJobs := fun _ _ => []
    createdJobResource := "projects/p/locations/us-central1/modelDeploymentMonitoringJobs/789"
    updatedJobResource := fun i =>
      "projects/p/locations/us-central1/modelDeploymentMonitoringJobs/" ++ i
    sinkExists := false
    iamExitCode := 0 }

/-- A platform on which the endpoint and a job named as filtered exist. -/
def wPlatUpdate : Platform :=
  { listEndpoints := fun _ _ => ["projects/p/locations/us-central1/endpoints/123"]
    listJobs := fun _ _ => ["projects/p/locations/us-central1/modelDeploymentMonitoringJobs/456"]
    createdJobResource := "projects/p/locations/us-central1/modelDeploymentMonitoringJobs/789"
    updatedJobResource := fun i =>
      "projects/p/locations/us-central1/modelDeploymentMonitoringJobs/" ++ i
    sinkExists := true
    iamExitCode := 0 }

/-! ## Helper lemmas -/

theorem dictInsert_ne_nil (m : Params) (k : String) (v : JVal) :
    dictInsert m k v ≠ [] := by
  cases m with
  | nil => simp [dictInsert]
  | cons kv t =>
      obtain ⟨a, b⟩ := kv
      by_cases h : a = k <;> simp [dictInsert, h]

theorem pLookup_dictInsert_self (m : Params) (k : String) (v : JVal) :
    pLookup k (dictInsert m k v) = some v := by
  induction m with
  | nil => simp [dictInsert, pLookup, List.lookup]
  | cons kv t ih =>
      obtain ⟨a, b⟩ := kv
      by_cases h : a = k
      · subst h; simp [dictInsert, pLookup, List.lookup]
      · have hka : (k == a) = false := beq_eq_false_iff_ne.mpr (Ne.symm h)
        simp only [dictInsert, if_neg h, pLookup, List.lookup, hka]
        exact ih

theorem pLookup_dictInsert_ne (m : Params) (j k : String) (v : JVal) (hjk : j ≠ k) :
    pLookup j (dictInsert m k v) = pLookup j m := by
  have hjk2 : (j == k) = false := beq_eq_false_iff_ne.mpr hjk
  induction m with
  | nil => simp [dictInsert, pLookup, List.lookup, hjk2]
  | cons kv t ih =>
      obtain ⟨a, b⟩ := kv
      by_cases h : a = k
      · subst h
        simp [dictInsert, pLookup, List.lookup, hjk2]
      · by_cases hja : j = a
        · subst hja
          simp [dictInsert, if_neg h, pLookup, List.lookup]
        · have hja2 : (j == a) = false := beq_eq_false_iff_ne.mpr hja
          simp only [dictInsert, if_neg h, pLookup, List.lookup, hja2]
          exact ih

theorem pDropKey_dictInsert (m : Params) (k : String) (v : JVal) :
    pDropKey k (dictInsert m k v) = pDropKey k m := by
  induction m with
  | nil => simp [dictInsert, pDropKey]
  | cons kv t ih =>
      obtain ⟨a, b⟩ := kv
      by_cases h : a = k
      · subst h; simp [dictInsert, pDropKey]
      · simp only [dictInsert, if_neg h, pDropKey, List.filter]
        simp only [pDropKey] at ih
        by_cases hak : (a != k) = true
        · simp [hak, ih]
        · exact absurd (bne_iff_ne.mpr h) hak

theorem pKeys_dictInsert (m : Params) (k : String) (v : JVal) :
    pKeys (dictInsert m k v) =
      if k ∈ pKeys m then pKeys m else pKeys m ++ [k] := by
  induction m with
  | nil => simp [dictInsert, pKeys]
  | cons kv t ih =>
      obtain ⟨a, b⟩ := kv
      by_cases h : a = k
      · subst h; simp [dictInsert, pKeys]
      · simp only [dictInsert, if_neg h, pKeys, List.map_cons]
        simp only [pKeys] at ih
        by_cases hk : k ∈ List.map Prod.fst t
        · simp [List.mem_cons, hk, Ne.symm h, ih]
        · simp [List.mem_cons, hk, Ne.symm h, ih]

@[simp] theorem isCreateEv_sinkEvent (r : SinkResult) : isCreateEv (sinkEvent r) = false := by
  obtain ⟨act, s⟩ := r; cases act <;> rfl

@[simp] theorem isUpdateEv_sinkEvent (r : SinkResult) : isUpdateEv (sinkEvent r) = false := by
  obtain ⟨act, s⟩ := r; cases act <;> rfl

@[simp] theorem isUpdateOn_sinkEvent (j : String) (r : SinkResult) :
    isUpdateOn j (sinkEvent r) = false := by
  obtain ⟨act, s⟩ := r; cases act <;> rfl

@[simp] theorem isUpsertEv_sinkEvent (r : SinkResult) : isUpsertEv (sinkEvent r) = false := by
  obtain ⟨act, s⟩ := r; cases act <;> rfl

@[simp] theorem isUploadEv_sinkEvent (r : SinkResult) : isUploadEv (sinkEvent r) = false := by
  obtain ⟨act, s⟩ := r; cases act <;> rfl

@[simp] theorem isSinkEv_sinkEvent (r : SinkResult) : isSinkEv (sinkEvent r) = true := by
  obtain ⟨act, s⟩ := r; cases act <;> rfl

@[simp] theorem isExecEv_sinkEvent (r : SinkResult) : isExecEv (sinkEvent r) = false := by
  obtain ⟨act, s⟩ := r; cases act <;> rfl

@[simp] theorem jobConfigOf_sinkEvent (r : SinkResult) :
    jobConfigOf (sinkEvent r) = none := by
  obtain ⟨act, s⟩ := r; cases act <;> rfl

@[simp] theorem execCommandOf_sinkEvent (r : SinkResult) :
    execCommandOf (sinkEvent r) = none := by
  obtain ⟨act, s⟩ := r; cases act <;> rfl

theorem eventsBefore_of_no_right (f g : Event → Bool) (tr : List Event)
    (h : ∀ e ∈ tr, g e = false) : eventsBefore f g tr := by
  intro i j hi hj _ hg
  rw [h _ (List.get_mem tr j hj)] at hg
  exact absurd hg (by simp)

theorem eventsBefore_append (f g : Event → Bool) (A B : List Event)
    (hgA : ∀ e ∈ A, g e = false) (hfB : ∀ e ∈ B, f e = false) :
    eventsBefore f g (A ++ B) := by
  intro i j hi hj hf hg
  have hjlen : A.length ≤ j := by
    by_contra hlt
    push_neg at hlt
    have heq : (A ++ B).get ⟨j, hj⟩ = A.get ⟨j, hlt⟩ := by
      simp only [List.get_eq_getElem]
      rw [List.getElem_append_left]
    rw [heq, hgA _ (List.get_mem A j hlt)] at hg
    exact absurd hg (by simp)
  have hilen : i < A.length := by
    by_contra hge
    push_neg at hge
    have hib : i - A.length < B.length := by
      have h2 := hi
      simp only [List.length_append] at h2
      omega
    have heq : (A ++ B).get ⟨i, hi⟩ = B.get ⟨i - A.length, hib⟩ := by
      simp only [List.get_eq_getElem]
      rw [List.getElem_append_right hge]
    rw [heq, hfB _ (List.get_mem B _ hib)] at hf
    exact absurd hf (by simp)
  omega

theorem no_upload_in_job_trace (a : MonitorArgs) (p : Platform) :
    ∀ e ∈ (create_or_update_monitoring_job a p).1, isUploadEv e = false := by
  intro e he
  unfold create_or_update_monitoring_job at he
  by_cases hep : p.listEndpoints a.monitoring_location (endpointFilter a.model_endpoint) = []
  · simp only [if_pos hep, List.mem_singleton] at he
    subst he; rfl
  · simp only [if_neg hep, List.mem_cons, List.mem_append] at he
    rcases he with rfl | rfl | he | he
    · rfl
    · rfl
    · cases hjl : p.listJobs a.monitoring_location (jobDisplayFilter a.job_display_name) with
      | nil => simp [jobUpsert, hjl] at he; subst he; rfl
      | cons first rest => simp [jobUpsert, hjl] at he; subst he; rfl
    · by_cases hap : a.auto_retraining_params.isEmpty
      · simp [retrainWiring, hap] at he
      · cases hse : p.sinkExists <;>
          simp only [retrainWiring, hap, hse, Bool.false_eq_true, if_false,
            create_or_update_sink, sinkEvent, List.mem_cons,
            List.not_mem_nil, or_false] at he <;>
          rcases he with rfl | rfl <;> rfl

theorem no_upsert_in_retrain (a : MonitorArgs) (p : Platform) (r : String) :
    ∀ e ∈ retrainWiring a p r, isUpsertEv e = false := by
  intro e he
  by_cases hap : a.auto_retraining_params.isEmpty
  · simp [retrainWiring, hap] at he
  · cases hse : p.sinkExists <;>
      simp only [retrainWiring, hap, hse, Bool.false_eq_true, if_false,
        create_or_update_sink, sinkEvent, List.mem_cons,
        List.not_mem_nil, or_false] at he <;>
      rcases he with rfl | rfl <;> rfl

@[simp] theorem countP_retrain_create (a : MonitorArgs) (p : Platform) (r : String) :
    (retrainWiring a p r).countP isCreateEv = 0 := by
  by_cases hap : a.auto_retraining_params.isEmpty
  · simp [retrainWiring, hap]
  · cases hse : p.sinkExists <;>
      simp [retrainWiring, hap, hse, create_or_update_sink, sinkEvent,
        List.countP_cons, isCreateEv]

@[simp] theorem countP_retrain_update (a : MonitorArgs) (p : Platform) (r : String) :
    (retrainWiring a p r).countP isUpdateEv = 0 := by
  by_cases hap : a.auto_retraining_params.isEmpty
  · simp [retrainWiring, hap]
  · cases hse : p.sinkExists <;>
      simp [retrainWiring, hap, hse, create_or_update_sink, sinkEvent,
        List.countP_cons, isUpdateEv]

@[simp] theorem countP_retrain_updateOn (a : MonitorArgs) (p : Platform) (r j : String) :
    (retrainWiring a p r).countP (isUpdateOn j) = 0 := by
  by_cases hap : a.auto_retraining_params.isEmpty
  · simp [retrainWiring, hap]
  · cases hse : p.sinkExists <;>
      simp [retrainWiring, hap, hse, create_or_update_sink, sinkEvent,
        List.countP_cons, isUpdateOn]

@[simp] theorem countP_retrain_upload (a : MonitorArgs) (p : Platform) (r : String) :
    (retrainWiring a p r).countP isUploadEv = 0 := by
  by_cases hap : a.auto_retraining_params.isEmpty
  · simp [retrainWiring, hap]
  · cases hse : p.sinkExists <;>
      simp [retrainWiring, hap, hse, create_or_update_sink, sinkEvent,
        List.countP_cons, isUploadEv]

@[simp] theorem countP_retrain_sink (a : MonitorArgs) (p : Platform) (r : String) :
    (retrainWiring a p r).countP isSinkEv
      = if a.auto_retraining_params.isEmpty then 0 else 1 := by
  by_cases hap : a.auto_retraining_params.isEmpty
  · simp [retrainWiring, hap]
  · cases hse : p.sinkExists <;>
      simp [retrainWiring, hap, hse, create_or_update_sink, sinkEvent,
        List.countP_cons, isSinkEv]

@[simp] theorem countP_retrain_exec (a : MonitorArgs) (p : Platform) (r : String) :
    (retrainWiring a p r).countP isExecEv
      = if a.auto_retraining_params.isEmpty then 0 else 1 := by
  by_cases hap : a.auto_retraining_params.isEmpty
  · simp [retrainWiring, hap]
  · cases hse : p.sinkExists <;>
      simp [retrainWiring, hap, hse, create_or_update_sink, sinkEvent,
        List.countP_cons, isExecEv]

@[simp] theorem filterMap_jobConfigOf_retrain (a : MonitorArgs) (p : Platform) (r : String) :
    (retrainWiring a p r).filterMap jobConfigOf = [] := by
  by_cases hap : a.auto_retraining_params.isEmpty
  · simp [retrainWiring, hap]
  · cases hse : p.sinkExists <;>
      simp [retrainWiring, hap, hse, create_or_update_sink, sinkEvent,
        List.filterMap_cons, jobConfigOf]

@[simp] theorem filterMap_execCommandOf_retrain (a : MonitorArgs) (p : Platform) (r : String) :
    (retrainWiring a p r).filterMap execCommandOf
      = if a.auto_retraining_params.isEmpty then []
        else [updateIamCommand a.project_id] := by
  by_cases hap : a.auto_retraining_params.isEmpty
  · simp [retrainWiring, hap]
  · cases hse : p.sinkExists <;>
      simp [retrainWiring, hap, hse, create_or_update_sink, sinkEvent,
        List.filterMap_cons, execCommandOf]

@[simp] theorem isEmpty_dictInsert (m : Params) (k : String) (v : JVal) :
    (dictInsert m k v).isEmpty = false := by
  cases h : dictInsert m k v with
  | nil => exact absurd h (dictInsert_ne_nil m k v)
  | cons x xs => rfl

theorem eventsBefore_cons (f g : Event → Bool) (x : Event) (B : List Event)
    (hgx : g x = false) (hfB : ∀ e ∈ B, f e = false) :
    eventsBefore f g (x :: B) :=
  eventsBefore_append f g [x] B
    (by intro e he; rw [List.mem_singleton] at he; subst he; exact hgx) hfB

theorem eventsBefore_cons4 (f g : Event → Bool) (x1 x2 x3 x4 : Event) (B : List Event)
    (h1 : g x1 = false) (h2 : g x2 = false) (h3 : g x3 = false) (h4 : g x4 = false)
    (hfB : ∀ e ∈ B, f e = false) :
    eventsBefore f g (x1 :: x2 :: x3 :: x4 :: B) :=
  eventsBefore_append f g [x1, x2, x3, x4] B
    (by
      intro e he
      simp only [List.mem_cons, List.not_mem_nil, or_false] at he
      rcases he with rfl | rfl | rfl | rfl
      · exact h1
      · exact h2
      · exact h3
      · exact h4) hfB

theorem no_upload_in_retrain (a : MonitorArgs) (p : Platform) (r : String) :
    ∀ e ∈ retrainWiring a p r, isUploadEv e = false := by
  intro e he
  by_cases hap : a.auto_retraining_params.isEmpty
  · simp [retrainWiring, hap] at he
  · cases hse : p.sinkExists <;>
      simp only [retrainWiring, hap, hse, Bool.false_eq_true, if_false,
        create_or_update_sink, sinkEvent, List.mem_cons,
        List.not_mem_nil, or_false] at he <;>
      rcases he with rfl | rfl <;> rfl

theorem no_create_in_retrain (a : MonitorArgs) (p : Platform) (r : String) :
    ∀ e ∈ retrainWiring a p r, isCreateEv e = false := by
  intro e he
  by_cases hap : a.auto_retraining_params.isEmpty
  · simp [retrainWiring, hap] at he
  · cases hse : p.sinkExists <;>
      simp only [retrainWiring, hap, hse, Bool.false_eq_true, if_false,
        create_or_update_sink, sinkEvent, List.mem_cons,
        List.not_mem_nil, or_false] at he <;>
      rcases he with rfl | rfl <;> rfl

theorem no_update_in_retrain (a : MonitorArgs) (p : Platform) (r : String) :
    ∀ e ∈ retrainWiring a p r, isUpdateEv e = false := by
  intro e he
  by_cases hap : a.auto_retraining_params.isEmpty
  · simp [retrainWiring, hap] at he
  · cases hse : p.sinkExists <;>
      simp only [retrainWiring, hap, hse, Bool.false_eq_true, if_false,
        create_or_update_sink, sinkEvent, List.mem_cons,
        List.not_mem_nil, or_false] at he <;>
      rcases he with rfl | rfl <;> rfl

/-! ## The claims -/

/-- C5: `create_or_update_sink` takes the update branch exactly when the sink
exists and the create branch exactly when it does not, and in both branches
the sink object acted on carries the supplied name, filter and destination —
the name is preserved and the settings applied are the same either way. -/
theorem c5_sink_upsert_branches (sinkExists : Bool)
    (sink_name : String) (destination : String) (filter_ : String) :
    ((create_or_update_sink sinkExists sink_name destination filter_).action
        = SinkAction.updated ↔ sinkExists = true) ∧
    ((create_or_update_sink sinkExists sink_name destination filter_).action
        = SinkAction.created ↔ sinkExists = false) ∧
    (create_or_update_sink sinkExists sink_name destination filter_).sink
      = { name := sink_name, filter_ := filter_, destination := destination } := by
  cases sinkExists <;> simp [create_or_update_sink]

/-- C10: `execute_process` always passes `stderr=subprocess.STDOUT`, folding
the child's stderr into its stdout stream in both modes; stdout is discarded
when `to_null` and inherited otherwise; and it raises a `RuntimeError`
wrapping the underlying `CalledProcessError` exactly when the child exits
non-zero. -/
theorem c10_execute_process_streams (command : String) (to_null : Bool) (exitCode : Int) :
    (execute_process command to_null exitCode).run.stderrDest = ErrDest.toStdout ∧
    (execute_process command to_null exitCode).run.stdoutDest
      = (if to_null then OutDest.devnull else OutDest.inherit) ∧
    (execute_process command to_null exitCode).run.args = [command] ∧
    ((execute_process command to_null exitCode).result = Except.ok () ↔ exitCode = 0) ∧
    (execute_process command to_null exitCode).result
      = (if exitCode = 0 then Except.ok ()
         else Except.error ("Error executing process. " ++
           calledProcessErrorDetail command exitCode)) := by
  by_cases h : exitCode = 0 <;> cases to_null <;> simp [execute_process, h]

/-- C2: in the objective configuration `create_or_update_monitoring_job`
assembles, the skew-detection config (referencing the training dataset and
target field) is present iff `skew_thresholds` is non-empty, the
drift-detection config is present iff `drift_thresholds` is non-empty, the
explanation config is always `None`, and every job create/update call of the
run carries exactly this objective configuration. -/
theorem c2_objective_config_presence (a : MonitorArgs) (p : Platform) :
    ((buildJobConfig a).objective_configs.skew_config.isSome = true
        ↔ a.skew_thresholds ≠ []) ∧
    ((buildJobConfig a).objective_configs.drift_config.isSome = true
        ↔ a.drift_thresholds ≠ []) ∧
    ((buildJobConfig a).objective_configs.skew_config
      = (if a.skew_thresholds = [] then none
         else some { data_source := a.training_dataset,
                     skew_thresholds := a.skew_thresholds,
                     target_field := a.target_field })) ∧
    ((buildJobConfig a).objective_configs.drift_config
      = (if a.drift_thresholds = [] then none
         else some { drift_thresholds := a.drift_thresholds })) ∧
    (buildJobConfig a).objective_configs.explanation_config = none ∧
    jobConfigsIn (create_or_update_monitoring_job a p).1
      = (if p.listEndpoints a.monitoring_location (endpointFilter a.model_endpoint) = []
         then [] else [buildJobConfig a]) := by
  refine ⟨?_, ?_, ?_, ?_, ?_, ?_⟩
  · by_cases hs : a.skew_thresholds = [] <;> simp [buildJobConfig, hs]
  · by_cases hd : a.drift_thresholds = [] <;> simp [buildJobConfig, hd]
  · by_cases hs : a.skew_thresholds = [] <;> simp [buildJobConfig, hs]
  · by_cases hd : a.drift_thresholds = [] <;> simp [buildJobConfig, hd]
  · rfl
  · by_cases hep : p.listEndpoints a.monitoring_location (endpointFilter a.model_endpoint) = []
    · simp [create_or_update_monitoring_job, hep, jobConfigsIn,
        List.filterMap_cons, jobConfigOf]
    · cases hjl : p.listJobs a.monitoring_location (jobDisplayFilter a.job_display_name) with
      | nil =>
          simp [create_or_update_monitoring_job, hep, jobUpsert, hjl, jobConfigsIn,
            List.filterMap_cons, List.filterMap_append, jobConfigOf]
      | cons first rest =>
          simp [create_or_update_monitoring_job, hep, jobUpsert, hjl, jobConfigsIn,
            List.filterMap_cons, List.filterMap_append, jobConfigOf]

/-- C8: the bucket-relative object path the upload uses is the configured
remote path with its first three `/`-separated segments dropped, rejoined
with `/`; a path of three or fewer segments yields the empty string; e.g.
`gs://bucket/a/b.json` yields `a/b.json`. -/
theorem c8_remote_object_path (params : Params) (rp sp bkt : String) :
    ((upload_automatic_retraining_parameters params rp sp bkt).object_path
        = pyJoin "/" ((pySplit rp '/').drop 3)) ∧
    ((pySplit rp '/').length ≤ 3 →
        (upload_automatic_retraining_parameters params rp sp bkt).object_path = "") ∧
    (upload_automatic_retraining_parameters params "gs://bucket/a/b.json" sp bkt).object_path
        = "a/b.json" := by
  refine ⟨rfl, ?_, rfl⟩
  intro h
  show pyJoin "/" ((pySplit rp '/').drop 3) = ""
  rw [List.drop_eq_nil_of_le h]
  rfl

/-- C6 counterexample: on the one-entry mapping `a = 1`, the caller's mapping
after `upload_automatic_retraining_parameters` is not the mapping passed in —
the key is added to the original object, not to a copy. -/
theorem c6_counterexample_upload_mutates :
    (upload_automatic_retraining_parameters [("a", JVal.jnum 1)]
        "gs://b/params/retrain.json" "gs://b/spec.json" "b").params_after
      ≠ [("a", JVal.jnum 1)] := by
  intro h
  have h1 : pLookup "gs_pipeline_spec_path"
      (upload_automatic_retraining_parameters [("a", JVal.jnum 1)]
        "gs://b/params/retrain.json" "gs://b/spec.json" "b").params_after
      = some (JVal.jstr "gs://b/spec.json") :=
    pLookup_dictInsert_self _ _ _
  rw [h] at h1
  have h2 : pLookup "gs_pipeline_spec_path" [(("a" : String), JVal.jnum 1)] = none := rfl
  rw [h2] at h1
  exact Option.noConfusion h1

/-- C6 (amended): `upload_automatic_retraining_parameters` mutates the
caller's params mapping in place: after the call the caller's mapping holds
the injected `gs_pipeline_spec_path` key with the supplied pipeline spec
path, and is unchanged at every other key. -/
theorem c6_amended_upload_mutates_in_place (params : Params) (rp sp bkt : String) :
    pLookup "gs_pipeline_spec_path"
        (upload_automatic_retraining_parameters params rp sp bkt).params_after
      = some (JVal.jstr sp) ∧
    pDropKey "gs_pipeline_spec_path"
        (upload_automatic_retraining_parameters params rp sp bkt).params_after
      = pDropKey "gs_pipeline_spec_path" params :=
  ⟨pLookup_dictInsert_self _ _ _, pDropKey_dictInsert _ _ _⟩

/-- C7: the mapping serialized into the local artifact file is exactly the
original params mapping augmented with the injected `gs_pipeline_spec_path`
field holding the supplied pipeline spec path: the injected key maps to that
path, every other key's value is unchanged, no key beyond the injected one
is added and none is removed. -/
theorem c7_artifact_roundtrip (params : Params) (rp sp bkt : String) :
    (pLookup "gs_pipeline_spec_path"
        (upload_automatic_retraining_parameters params rp sp bkt).local_file_content
      = some (JVal.jstr sp)) ∧
    (∀ k, k ≠ "gs_pipeline_spec_path" →
      pLookup k (upload_automatic_retraining_parameters params rp sp bkt).local_file_content
        = pLookup k params) ∧
    (∀ k, k ∈ pKeys (upload_automatic_retraining_parameters params rp sp bkt).local_file_content
        → k ∈ pKeys params ∨ k = "gs_pipeline_spec_path") ∧
    (∀ k, k ∈ pKeys params →
      k ∈ pKeys (upload_automatic_retraining_parameters params rp sp bkt).local_file_content) := by
  refine ⟨pLookup_dictInsert_self _ _ _,
    fun k hk => pLookup_dictInsert_ne _ _ _ _ hk, ?_, ?_⟩
  · intro k hk
    rw [show pKeys (upload_automatic_retraining_parameters params rp sp bkt).local_file_content
          = pKeys (dictInsert params "gs_pipeline_spec_path" (JVal.jstr sp)) from rfl,
        pKeys_dictInsert] at hk
    by_cases hmem : "gs_pipeline_spec_path" ∈ pKeys params
    · rw [if_pos hmem] at hk; exact Or.inl hk
    · rw [if_neg hmem] at hk
      rcases List.mem_append.mp hk with h1 | h1
      · exact Or.inl h1
      · exact Or.inr (List.mem_singleton.mp h1)
  · intro k hk
    rw [show pKeys (upload_automatic_retraining_parameters params rp sp bkt).local_file_content
          = pKeys (dictInsert params "gs_pipeline_spec_path" (JVal.jstr sp)) from rfl,
        pKeys_dictInsert]
    by_cases hmem : "gs_pipeline_spec_path" ∈ pKeys params
    · rw [if_pos hmem]; exact hk
    · rw [if_neg hmem]; exact List.mem_append.mpr (Or.inl hk)

/-- C1: with the endpoint found, `create_or_update_monitoring_job` makes
exactly one job create call and no update call when the display-name job
lookup returns nothing, and exactly one update call — on the identifier
taken from the first match's resource name (its last `/`-segment) — and no
create call when it returns matches. -/
theorem c1_job_upsert_branching (a : MonitorArgs) (p : Platform)
    (hep : p.listEndpoints a.monitoring_location (endpointFilter a.model_endpoint) ≠ []) :
    (p.listJobs a.monitoring_location (jobDisplayFilter a.job_display_name) = [] →
      (create_or_update_monitoring_job a p).1.countP isCreateEv = 1 ∧
      (create_or_update_monitoring_job a p).1.countP isUpdateEv = 0) ∧
    (∀ first rest,
      p.listJobs a.monitoring_location (jobDisplayFilter a.job_display_name) = first :: rest →
      (create_or_update_monitoring_job a p).1.countP isUpdateEv = 1 ∧
      (create_or_update_monitoring_job a p).1.countP (isUpdateOn (lastSeg first)) = 1 ∧
      (create_or_update_monitoring_job a p).1.countP isCreateEv = 0) := by
  constructor
  · intro hjl
    simp [create_or_update_monitoring_job, hep, jobUpsert, hjl,
      List.countP_cons, List.countP_append, isCreateEv, isUpdateEv]
  · intro first rest hjl
    refine ⟨?_, ?_, ?_⟩ <;>
      simp [create_or_update_monitoring_job, hep, jobUpsert, hjl,
        List.countP_cons, List.countP_append, isCreateEv, isUpdateEv, isUpdateOn]

/-- Witness for C1: on a concrete configuration and a platform where the
endpoint exists and no job matches the display name, exactly one create and
no update call is made. -/
theorem c1_witness :
    (create_or_update_monitoring_job wArgs wPlatCreate).1.countP isCreateEv = 1 ∧
    (create_or_update_monitoring_job wArgs wPlatCreate).1.countP isUpdateEv = 0 :=
  (c1_job_upsert_branching wArgs wPlatCreate (by decide)).1 (by decide)

/-- C3: when the endpoint lookup (by the last `/`-segment of
`model_endpoint`, within the given location) returns no match,
`create_or_update_monitoring_job` raises the not-found error whose message
contains the supplied endpoint and location, and attempts no job create or
update call (nor any sink or process call) afterwards. -/
theorem c3_endpoint_not_found (a : MonitorArgs) (p : Platform)
    (h : p.listEndpoints a.monitoring_location (endpointFilter a.model_endpoint) = []) :
    ((create_or_update_monitoring_job a p).2
      = some ("Model endpoint " ++ a.model_endpoint ++ " not found in " ++
          a.monitoring_location)) ∧
    (∃ s t, (create_or_update_monitoring_job a p).2 = some (s ++ a.model_endpoint ++ t)) ∧
    (∃ s t, (create_or_update_monitoring_job a p).2 = some (s ++ a.monitoring_location ++ t)) ∧
    (create_or_update_monitoring_job a p).1.countP isCreateEv = 0 ∧
    (create_or_update_monitoring_job a p).1.countP isUpdateEv = 0 ∧
    (create_or_update_monitoring_job a p).1.countP isSinkEv = 0 ∧
    (create_or_update_monitoring_job a p).1.countP isExecEv = 0 := by
  have htr : create_or_update_monitoring_job a p
      = ([Event.listEndpointsCall a.monitoring_location (endpointFilter a.model_endpoint)],
         some ("Model endpoint " ++ a.model_endpoint ++ " not found in " ++
           a.monitoring_location)) := by
    simp [create_or_update_monitoring_job, h]
  refine ⟨by rw [htr], ?_, ?_, ?_, ?_, ?_, ?_⟩
  · refine ⟨"Model endpoint ", " not found in " ++ a.monitoring_location, ?_⟩
    rw [htr]
    simp [String.append_assoc]
  · refine ⟨"Model endpoint " ++ a.model_endpoint ++ " not found in ", "", ?_⟩
    rw [htr]
    simp [String.append_assoc, String.append_empty]
  · rw [htr]; rfl
  · rw [htr]; rfl
  · rw [htr]; rfl
  · rw [htr]; rfl

/-- Witness for C3: on a concrete configuration and a platform whose
endpoint lookup is empty, the raised error is the not-found message naming
the endpoint and location. -/
theorem c3_witness :
    (create_or_update_monitoring_job wArgs wPlatNoEndpoint).2
      = some ("Model endpoint " ++ wArgs.model_endpoint ++ " not found in " ++
          wArgs.monitoring_location) :=
  (c3_endpoint_not_found wArgs wPlatNoEndpoint (by decide)).1

/-- C9: the IAM-grant shell command is independent of the pubsub topic name —
two configurations differing only in the topic produce the identical list of
executed commands — and every executed command is exactly
`updateIamCommand project_id`, the project-wide grant of
`roles/pubsub.publisher` to `cloud-logs@system.gserviceaccount.com`. -/
theorem c9_iam_grant_topic_noninterference (a : MonitorArgs) (p : Platform) (t1 t2 : String) :
    execCommands (create_or_update_monitoring_job { a with pubsub_topic_name := t1 } p).1
      = execCommands (create_or_update_monitoring_job { a with pubsub_topic_name := t2 } p).1 ∧
    execCommands (create_or_update_monitoring_job a p).1
      = (if p.listEndpoints a.monitoring_location (endpointFilter a.model_endpoint) = []
            ∨ a.auto_retraining_params.isEmpty = true
         then [] else [updateIamCommand a.project_id]) := by
  have key : ∀ b : MonitorArgs, execCommands (create_or_update_monitoring_job b p).1
      = (if p.listEndpoints b.monitoring_location (endpointFilter b.model_endpoint) = []
            ∨ b.auto_retraining_params.isEmpty = true
         then [] else [updateIamCommand b.project_id]) := by
    intro b
    by_cases hep : p.listEndpoints b.monitoring_location (endpointFilter b.model_endpoint) = []
    · simp [create_or_update_monitoring_job, hep, execCommands,
        List.filterMap_cons, execCommandOf]
    · cases hjl : p.listJobs b.monitoring_location (jobDisplayFilter b.job_display_name) with
      | nil =>
          by_cases hap : b.auto_retraining_params.isEmpty <;>
            simp [create_or_update_monitoring_job, hep, jobUpsert, hjl, execCommands,
              List.filterMap_cons, List.filterMap_append, execCommandOf, hap]
      | cons f r =>
          by_cases hap : b.auto_retraining_params.isEmpty <;>
            simp [create_or_update_monitoring_job, hep, jobUpsert, hjl, execCommands,
              List.filterMap_cons, List.filterMap_append, execCommandOf, hap]
  refine ⟨?_, key a⟩
  rw [key { a with pubsub_topic_name := t1 }, key { a with pubsub_topic_name := t2 }]

/-- C4: with `auto_retraining_params` empty the uploader, the log-sink
upsert and the IAM-grant execution never occur; with it non-empty the
uploader runs exactly once and before any job upsert call, every sink upsert
and process execution comes after the job upsert, and on a successful run
the upsert, the sink upsert and the IAM grant each occur exactly once. -/
theorem c4_retraining_wiring_order (c : Config) (p : Platform) :
    (c.auto_retraining_params = [] →
      (main_flow c p).1.countP isUploadEv = 0 ∧
      (main_flow c p).1.countP isSinkEv = 0 ∧
      (main_flow c p).1.countP isExecEv = 0) ∧
    (c.auto_retraining_params ≠ [] →
      (main_flow c p).1.countP isUploadEv = 1 ∧
      eventsBefore isUploadEv isUpsertEv (main_flow c p).1 ∧
      eventsBefore isUpsertEv isSinkEv (main_flow c p).1 ∧
      eventsBefore isUpsertEv isExecEv (main_flow c p).1 ∧
      ((main_flow c p).2 = none →
        (main_flow c p).1.countP isUpsertEv = 1 ∧
        (main_flow c p).1.countP isSinkEv = 1 ∧
        (main_flow c p).1.countP isExecEv = 1)) := by
  constructor
  · intro hnil
    by_cases hep : p.listEndpoints c.monitoring_location (endpointFilter c.model_endpoint) = []
    · simp [main_flow, hnil, create_or_update_monitoring_job, hep,
        List.countP_cons, isUploadEv, isSinkEv, isExecEv]
    · cases hjl : p.listJobs c.monitoring_location (jobDisplayFilter c.job_display_name) with
      | nil =>
          simp [main_flow, hnil, create_or_update_monitoring_job, hep, jobUpsert, hjl,
            List.countP_cons, List.countP_append, isUploadEv, isSinkEv, isExecEv]
      | cons f r =>
          simp [main_flow, hnil, create_or_update_monitoring_job, hep, jobUpsert, hjl,
            List.countP_cons, List.countP_append, isUploadEv, isSinkEv, isExecEv]
  · intro hne
    have hap : c.auto_retraining_params.isEmpty = false := by
      cases h2 : c.auto_retraining_params with
      | nil => exact absurd h2 hne
      | cons x xs => rfl
    by_cases hep : p.listEndpoints c.monitoring_location (endpointFilter c.model_endpoint) = []
    · refine ⟨?_, ?_, ?_, ?_, ?_⟩
      · simp [main_flow, hap, create_or_update_monitoring_job, hep,
          List.countP_cons, isUploadEv]
      · simp only [main_flow, hap, Bool.false_eq_true, if_false,
          create_or_update_monitoring_job, hep, if_pos]
        apply eventsBefore_of_no_right
        intro e he
        simp only [List.mem_cons, List.not_mem_nil, or_false] at he
        rcases he with rfl | rfl <;> rfl
      · simp only [main_flow, hap, Bool.false_eq_true, if_false,
          create_or_update_monitoring_job, hep, if_pos]
        apply eventsBefore_of_no_right
        intro e he
        simp only [List.mem_cons, List.not_mem_nil, or_false] at he
        rcases he with rfl | rfl <;> rfl
      · simp only [main_flow, hap, Bool.false_eq_true, if_false,
          create_or_update_monitoring_job, hep, if_pos]
        apply eventsBefore_of_no_right
        intro e he
        simp only [List.mem_cons, List.not_mem_nil, or_false] at he
        rcases he with rfl | rfl <;> rfl
      · simp [main_flow, hap, create_or_update_monitoring_job, hep]
    · cases hjl : p.listJobs c.monitoring_location (jobDisplayFilter c.job_display_name) with
      | nil =>
          refine ⟨?_, ?_, ?_, ?_, ?_⟩
          · simp [main_flow, hap, create_or_update_monitoring_job, hep, jobUpsert, hjl,
              List.countP_cons, List.countP_append, isUploadEv]
          · simp only [main_flow, hap, Bool.false_eq_true, if_false,
              create_or_update_monitoring_job, hep, if_neg, jobUpsert, hjl,
              List.cons_append, List.singleton_append]
            refine eventsBefore_cons isUploadEv isUpsertEv _ _ ?_ ?_
            · rfl
            · intro e he
              simp only [List.mem_cons] at he
              rcases he with rfl | rfl | rfl | he
              · rfl
              · rfl
              · rfl
              · exact no_upload_in_retrain _ p _ e he
          · simp only [main_flow, hap, Bool.false_eq_true, if_false,
              create_or_update_monitoring_job, hep, if_neg, jobUpsert, hjl,
              List.cons_append, List.singleton_append]
            exact eventsBefore_cons4 isUpsertEv isSinkEv _ _ _ _ _
              rfl rfl rfl rfl (no_upsert_in_retrain _ p _)
          · simp only [main_flow, hap, Bool.false_eq_true, if_false,
              create_or_update_monitoring_job, hep, if_neg, jobUpsert, hjl,
              List.cons_append, List.singleton_append]
            exact eventsBefore_cons4 isUpsertEv isExecEv _ _ _ _ _
              rfl rfl rfl rfl (no_upsert_in_retrain _ p _)
          · intro _
            refine ⟨?_, ?_, ?_⟩
            · simp [main_flow, hap, create_or_update_monitoring_job, hep, jobUpsert, hjl,
                List.countP_cons, List.countP_append, isUpsertEv, isCreateEv, isUpdateEv,
                upload_automatic_retraining_parameters]
              intro e he
              exact ⟨no_create_in_retrain _ p _ e he, no_update_in_retrain _ p _ e he⟩
            · simp [main_flow, hap, create_or_update_monitoring_job, hep, jobUpsert, hjl,
                List.countP_cons, List.countP_append, isSinkEv,
                upload_automatic_retraining_parameters]
            · simp [main_flow, hap, create_or_update_monitoring_job, hep, jobUpsert, hjl,
                List.countP_cons, List.countP_append, isExecEv,
                upload_automatic_retraining_parameters]
      | cons f r =>
          refine ⟨?_, ?_, ?_, ?_, ?_⟩
          · simp [main_flow, hap, create_or_update_monitoring_job, hep, jobUpsert, hjl,
              List.countP_cons, List.countP_append, isUploadEv]
          · simp only [main_flow, hap, Bool.false_eq_true, if_false,
              create_or_update_monitoring_job, hep, if_neg, jobUpsert, hjl,
              List.cons_append, List.singleton_append]
            refine eventsBefore_cons isUploadEv isUpsertEv _ _ ?_ ?_
            · rfl
            · intro e he
              simp only [List.mem_cons] at he
              rcases he with rfl | rfl | rfl | he
              · rfl
              · rfl
              · rfl
              · exact no_upload_in_retrain _ p _ e he
          · simp only [main_flow, hap, Bool.false_eq_true, if_false,
              create_or_update_monitoring_job, hep, if_neg, jobUpsert, hjl,
              List.cons_append, List.singleton_append]
            exact eventsBefore_cons4 isUpsertEv isSinkEv _ _ _ _ _
              rfl rfl rfl rfl (no_upsert_in_retrain _ p _)
          · simp only [main_flow, hap, Bool.false_eq_true, if_false,
              create_or_update_monitoring_job, hep, if_neg, jobUpsert, hjl,
              List.cons_append, List.singleton_append]
            exact eventsBefore_cons4 isUpsertEv isExecEv _ _ _ _ _
              rfl rfl rfl rfl (no_upsert_in_retrain _ p _)
          · intro _
            refine ⟨?_, ?_, ?_⟩
            · simp [main_flow, hap, create_or_update_monitoring_job, hep, jobUpsert, hjl,
                List.countP_cons, List.countP_append, isUpsertEv, isCreateEv, isUpdateEv,
                upload_automatic_retraining_parameters]
              intro e he
              exact ⟨no_create_in_retrain _ p _ e he, no_update_in_retrain _ p _ e he⟩
            · simp [main_flow, hap, create_or_update_monitoring_job, hep, jobUpsert, hjl,
                List.countP_cons, List.countP_append, isSinkEv,
                upload_automatic_retraining_parameters]
            · simp [main_flow, hap, create_or_update_monitoring_job, hep, jobUpsert, hjl,
                List.countP_cons, List.countP_append, isExecEv,
                upload_automatic_retraining_parameters]

end ModelMonitor
